import Mathlib

/-!
Shallow embedding of the call-orchestration layer of `VoIP_sttest`:
the `_Call` state machine (`src/voip_sttest/_implement_call.py`) and the
`Phone` registry/dispatcher (`src/qa_voip_py/phone.py`).

Modelling conventions:
* A Python dict key that may be absent becomes an `Option` field; reading an
  absent key (`d['k']`) is a `keyError`; `d.get('k')` reads the `Option`.
* Each handler returns a `StepResult`: the mutated call record, the list of
  messages sent through the SIP transport (in order), and the exception that
  escaped, if any.  Mutations and sends performed before an exception are kept,
  as in Python.
* `try_wait`-style bounded waits inside `_Call._stop` rendezvous with a
  concurrent event-delivery thread; that environment is abstracted as a
  boolean oracle `env`: `true` means the awaited condition (state `ENDED`)
  became true within the bound, `false` means the wait timed out.
-/

namespace VoipSttest

/-- `CallState` from `_implement_call.py`. -/
inductive CallState where
  | DIALING
  | RINGING
  | TRYING
  | ANSWERED
  | ENDED
deriving DecidableEq, Repr

/-- `CallStopReason` from `_implement_call.py`. -/
inductive CallStopReason where
  | SIP_ERROR
  | BYE_FROM_PBX
  | BYE_FROM_LOCAL
deriving DecidableEq, Repr

/-- Messages sent through the SIP transport (`SipFlow`).  `inviteAuth` is
`send_invite` called with the unauthorized challenge (credentials resend);
`invite` is the initial `send_invite` of `_new_call`. -/
inductive SipSend where
  | ack
  | invite
  | inviteAuth
  | bye
  | okMsg
deriving DecidableEq, Repr

/-- Exceptions the embedded code can raise, one per `raise` site (plus
`keyError` for reading an absent dict key). -/
inductive CallError where
  | protocolSequence
  | authenticationFailed
  | teardownTimeout
  | invalidTeardownState
  | invalidStopReason
  | alreadyPlaced
  | keyError
deriving DecidableEq, Repr

/-- The mutable per-call record `_Call.call_data` (plus the media wrapper's
observable effects).  Constant configuration entries (`available_payload`,
`media_port`, `sendtype`, `type`, `pbx_info`) are omitted: they are set once in
`__init__` and never branched on.  `invite_req` records whether
`call_data['invite_request']` is present; `error_set` whether
`call_data['error']` is; `media_connected`/`media_stopped` record whether
`media_wrapper._set_socket_connection` / `media_wrapper.stop` were invoked. -/
structure CallData where
  state : Option CallState
  stop_reason : Option CallStopReason
  auth_sent : Bool
  call_id : Option String
  number : Option String
  sess_id : Option String
  invite_req : Bool
  error_set : Bool
  media_connected : Bool
  media_stopped : Bool
deriving DecidableEq, Repr

/-- Result of running one handler: the record after all mutations that
happened, the SIP messages sent (in order), and the escaped exception. -/
structure StepResult where
  call : CallData
  sent : List SipSend
  err : Option CallError
deriving DecidableEq, Repr

/-- `_Call.__init__`: `call_data['state'] = None`, no `call_id`, no
`stop_reason`, no `auth_sent` key (`.get` reads falsy). -/
def initialCall : CallData :=
  { state := none
    stop_reason := none
    auth_sent := false
    call_id := none
    number := none
    sess_id := none
    invite_req := false
    error_set := false
    media_connected := false
    media_stopped := false }

/-- `_Call._stop`.  `env` abstracts the concurrent event thread during the
`try_wait` for state `ENDED` after `send_bye`: `true` if the state became
`ENDED` within the bound, `false` if the wait timed out (raising). -/
def stopCall (env : Bool) (c : CallData) : StepResult :=
  match c.state with
  | none => ⟨c, [], none⟩
  | some CallState.ENDED => ⟨c, [], none⟩
  | some s =>
    match c.stop_reason with
    | none => ⟨c, [], some CallError.keyError⟩
    | some r =>
      if r = CallStopReason.BYE_FROM_PBX then
        ⟨{ c with media_stopped := true, state := some CallState.ENDED }, [], none⟩
      else if s = CallState.TRYING ∨ s = CallState.ANSWERED then
        if c.invite_req then
          if env then
            let c1 := { c with state := some CallState.ENDED, media_stopped := true }
            if r ≠ CallStopReason.BYE_FROM_LOCAL then
              ⟨c1, [SipSend.bye], some CallError.invalidStopReason⟩
            else
              ⟨c1, [SipSend.bye], none⟩
          else
            ⟨c, [SipSend.bye], some CallError.teardownTimeout⟩
        else
          ⟨c, [], some CallError.keyError⟩
      else
        ⟨c, [], some CallError.invalidTeardownState⟩

/-- `_Call._handle_trying`: unconditionally `_set_state(TRYING)`. -/
def handleTrying (c : CallData) : StepResult :=
  ⟨{ c with state := some CallState.TRYING }, [], none⟩

/-- `_Call._handle_unauthorized`: first challenge sends an ack then resends
the invite with credentials and sets `auth_sent`; a second challenge raises.
`send_invite` reads `call_data['number']` and `call_data['sess_id']`, so those
keys being absent raises `KeyError` after the ack. -/
def handleUnauthorized (c : CallData) : StepResult :=
  if c.auth_sent then
    ⟨c, [], some CallError.authenticationFailed⟩
  else
    match c.number, c.sess_id with
    | some _, some _ =>
      ⟨{ c with auth_sent := true }, [SipSend.ack, SipSend.inviteAuth], none⟩
    | _, _ => ⟨c, [SipSend.ack], some CallError.keyError⟩

/-- `_Call._handle_not_found`: set `stop_reason = SIP_ERROR`, record the
error, `send_ack`, then `_stop`. -/
def handleNotFound (env : Bool) (c : CallData) : StepResult :=
  let c1 := { c with stop_reason := some CallStopReason.SIP_ERROR, error_set := true }
  let r := stopCall env c1
  ⟨r.call, SipSend.ack :: r.sent, r.err⟩

/-- `_Call._handle_unavailable`: same shape as `_handle_not_found`. -/
def handleUnavailable (env : Bool) (c : CallData) : StepResult :=
  let c1 := { c with stop_reason := some CallStopReason.SIP_ERROR, error_set := true }
  let r := stopCall env c1
  ⟨r.call, SipSend.ack :: r.sent, r.err⟩

/-- `_Call._handle_OK`: `method` is `request.headers['CSeq']['method']`. -/
def handleOK (method : String) (c : CallData) : StepResult :=
  if c.state = some CallState.TRYING then
    ⟨{ c with state := some CallState.ANSWERED, media_connected := true },
      [SipSend.ack], none⟩
  else if c.state = some CallState.ANSWERED ∧ method = "BYE" then
    ⟨{ c with state := some CallState.ENDED }, [], none⟩
  else if c.state = some CallState.ANSWERED ∧ method = "INVITE" then
    ⟨c, [], none⟩
  else
    ⟨c, [], some CallError.protocolSequence⟩

/-- `_Call._handle_bye`: `send_ok`, set `stop_reason = BYE_FROM_PBX`, `_stop`. -/
def handleBye (env : Bool) (c : CallData) : StepResult :=
  let c1 := { c with stop_reason := some CallStopReason.BYE_FROM_PBX }
  let r := stopCall env c1
  ⟨r.call, SipSend.okMsg :: r.sent, r.err⟩

/-- `_Call._new_call`: only valid with no `call_id` yet; sends the invite and
parses the first response (`_parse_invite`), whose `Call-ID` is `cid` and
session id is `sid`. -/
def newCall (number cid sid : String) (c : CallData) : StepResult :=
  match c.call_id with
  | none =>
    ⟨{ c with number := some number, call_id := some cid, sess_id := some sid,
              invite_req := true },
      [SipSend.invite], none⟩
  | some _ => ⟨c, [], some CallError.alreadyPlaced⟩

/-- `_Call._hangup`: if state is not `ENDED`, set `stop_reason =
BYE_FROM_LOCAL` and `_stop`; otherwise nothing. -/
def hangup (env : Bool) (c : CallData) : StepResult :=
  if c.state ≠ some CallState.ENDED then
    stopCall env { c with stop_reason := some CallStopReason.BYE_FROM_LOCAL }
  else
    ⟨c, [], none⟩

/-- One inbound signaling event routed by `Phone._callback`, or the
caller-side `hangup`.  `ok` carries the response's `CSeq` method. -/
inductive Event where
  | trying
  | ok (method : String)
  | notFound
  | unavailable
  | unauthorized
  | bye
  | hangupOp
deriving DecidableEq, Repr

/-- Dispatch one event to the call's handler, as `Phone._callback` routes by
status/method (plus the caller operation `_hangup`).  `env` is the wait oracle
for the `_stop` inside the handler. -/
def step (env : Bool) (c : CallData) : Event → StepResult
  | Event.trying => handleTrying c
  | Event.ok m => handleOK m c
  | Event.notFound => handleNotFound env c
  | Event.unavailable => handleUnavailable env c
  | Event.unauthorized => handleUnauthorized c
  | Event.bye => handleBye env c
  | Event.hangupOp => hangup env c

/-- Run a sequence of events; each event carries its own wait oracle.
Mutations persist even when a handler raised (Python exceptions do not roll
back `call_data`). -/
def runCall (c : CallData) : List (Event × Bool) → CallData
  | [] => c
  | (e, env) :: rest => runCall (step env c e).call rest

/-- The sequence of values of `call_data['state']` observed along a run,
including the initial one. -/
def stateTrace (c : CallData) : List (Event × Bool) → List (Option CallState)
  | [] => [c.state]
  | (e, env) :: rest => c.state :: stateTrace (step env c e).call rest

/-- The transitions the spec allows: along
`Dialing → Trying → Answered → Ended` or `{Dialing, Trying} → Ended`, with the
unset initial state read as the spec's `Dialing`, and staying in place allowed
(no transition). -/
def specStateOf : Option CallState → CallState
  | none => CallState.DIALING
  | some s => s

def specAllowed (s t : Option CallState) : Bool :=
  specStateOf s = specStateOf t ∨
    (specStateOf s = CallState.DIALING ∧ specStateOf t = CallState.TRYING) ∨
    (specStateOf s = CallState.TRYING ∧ specStateOf t = CallState.ANSWERED) ∨
    (specStateOf s = CallState.ANSWERED ∧ specStateOf t = CallState.ENDED) ∨
    (specStateOf s = CallState.DIALING ∧ specStateOf t = CallState.ENDED) ∨
    (specStateOf s = CallState.TRYING ∧ specStateOf t = CallState.ENDED)

/-- The transitions the code actually takes: staying in place, any state to
`TRYING` (a trying response is handled unconditionally), `TRYING → ANSWERED`,
and `{TRYING, ANSWERED} → ENDED`. -/
def codeAllowed (s t : Option CallState) : Bool :=
  s = t ∨ t = some CallState.TRYING ∨
    (s = some CallState.TRYING ∧ t = some CallState.ANSWERED) ∨
    ((s = some CallState.TRYING ∨ s = some CallState.ANSWERED) ∧
      t = some CallState.ENDED)

/-- Every adjacent pair of a trace satisfies `allowed`. -/
def chainOk (allowed : Option CallState → Option CallState → Bool) :
    List (Option CallState) → Bool
  | [] => true
  | [_] => true
  | a :: b :: rest => allowed a b && chainOk allowed (b :: rest)

/-- Observable actions of `Phone.call`, in program order: messages sent
through the SIP transport and insertions into `Phone.calls`. -/
inductive TraceEv where
  | sent (m : SipSend)
  | registered (cid : String)
deriving DecidableEq, Repr

structure PhoneCallResult where
  registry : List (String × CallData)
  new_call : CallData
  trace : List TraceEv
deriving Repr

/-- `Phone.call`: build a fresh `_Call`, run `_new_call` (which sends the
invite and parses the response carrying `cid`/`sid`), then insert the call
into `Phone.calls` under its `Call-ID`. -/
def phoneCall (reg : List (String × CallData)) (number cid sid : String) :
    PhoneCallResult :=
  let r := newCall number cid sid initialCall
  { registry := (cid, r.call) :: reg
    new_call := r.call
    trace := r.sent.map TraceEv.sent ++ [TraceEv.registered cid] }

/-- Index of the first registry insertion in a trace. -/
def regIdx (tr : List TraceEv) : Nat :=
  tr.findIdx fun e => match e with
    | TraceEv.registered _ => true
    | _ => false

/-- Index of the first invite send in a trace. -/
def inviteIdx (tr : List TraceEv) : Nat :=
  tr.findIdx fun e => match e with
    | TraceEv.sent SipSend.invite => true
    | _ => false

/-- The claim's ordering: the registry insertion strictly precedes the
negotiation-request send. -/
def insertBeforeSend (tr : List TraceEv) : Bool :=
  regIdx tr < inviteIdx tr

/-- Modelled from the spec: `helpers/waiter.try_wait` (its body is not under
`src/`; only its callers are).  Per §4.1 it polls a condition at a fixed short
interval until it evaluates true or the timeout elapses; a poll that throws
counts as not yet satisfied.  Time is discretized into poll ticks:
`cond t = some v` means the poll at tick `t` succeeded with `v`, `none` that
it threw or was falsy.  `tryWaitRun cond fuel elapsed` returns the first
success with the tick it happened at, or, after `fuel` failed polls, the
timeout error carrying the total elapsed ticks. -/
def tryWaitRun (cond : Nat → Option α) : Nat → Nat → Except Nat (α × Nat)
  | 0, elapsed => Except.error elapsed
  | Nat.succ fuel, elapsed =>
    match cond elapsed with
    | some v => Except.ok (v, elapsed)
    | none => tryWaitRun cond fuel (elapsed + 1)

/-- Modelled from the spec: `try_wait(cond, wait_time, raise_after_time=True)`
with `maxPolls` polls within the timeout window, starting at tick 0. -/
def try_wait (cond : Nat → Option α) (maxPolls : Nat) : Except Nat (α × Nat) :=
  tryWaitRun cond maxPolls 0

/-- `Phone._callback`'s registry lookup: `try_wait` over
`self.calls[request.headers['Call-ID']]`, where `regAt t` is the contents of
`Phone.calls` at poll tick `t` (it is mutated concurrently by `Phone.call`).
A `KeyError` from an unregistered id counts as an unsatisfied poll. -/
def phoneLookup (regAt : Nat → List (String × CallData)) (cid : String)
    (maxPolls : Nat) : Except Nat (CallData × Nat) :=
  try_wait (fun t => (regAt t).lookup cid) maxPolls

/-! ## State-transition lemmas -/

lemma stopCall_state (env : Bool) (c : CallData) :
    (stopCall env c).call.state = c.state ∨
      ((stopCall env c).call.state = some CallState.ENDED ∧
        (c.state = some CallState.TRYING ∨ c.state = some CallState.ANSWERED ∨
          c.state = some CallState.DIALING ∨ c.state = some CallState.RINGING)) := by
  obtain ⟨s, r, a, ci, n, si, iv, er, mc, ms⟩ := c
  rcases s with _ | s
  · left; rfl
  · rcases r with _ | r
    · rcases s <;> simp [stopCall]
    · rcases s <;> rcases r <;> rcases iv <;> rcases env <;> simp [stopCall]

lemma step_state_ok (env : Bool) (c : CallData) (e : Event)
    (h1 : c.state ≠ some CallState.DIALING)
    (h2 : c.state ≠ some CallState.RINGING) :
    codeAllowed c.state (step env c e).call.state = true ∧
      (step env c e).call.state ≠ some CallState.DIALING ∧
      (step env c e).call.state ≠ some CallState.RINGING := by
  have base : ∀ d : CallData, codeAllowed d.state d.state = true := by
    intro d; simp [codeAllowed]
  cases e with
  | trying =>
      simp [step, handleTrying, codeAllowed]
  | ok m =>
      simp only [step, handleOK]
      split_ifs with hA hB hC <;> simp_all [codeAllowed]
  | notFound =>
      simp only [step, handleNotFound]
      rcases stopCall_state env
          { c with stop_reason := some CallStopReason.SIP_ERROR, error_set := true } with
        h | ⟨h, hcase⟩ <;> simp_all [codeAllowed]
  | unavailable =>
      simp only [step, handleUnavailable]
      rcases stopCall_state env
          { c with stop_reason := some CallStopReason.SIP_ERROR, error_set := true } with
        h | ⟨h, hcase⟩ <;> simp_all [codeAllowed]
  | unauthorized =>
      simp only [step, handleUnauthorized]
      split_ifs with hA
      · simp_all [codeAllowed]
      · rcases c.number with _ | n <;> rcases c.sess_id with _ | s <;>
          simp_all [codeAllowed]
  | bye =>
      simp only [step, handleBye]
      rcases stopCall_state env
          { c with stop_reason := some CallStopReason.BYE_FROM_PBX } with
        h | ⟨h, hcase⟩ <;> simp_all [codeAllowed]
  | hangupOp =>
      simp only [step, hangup]
      split_ifs with hA
      · rcases stopCall_state env
            { c with stop_reason := some CallStopReason.BYE_FROM_LOCAL } with
          h | ⟨h, hcase⟩ <;> simp_all [codeAllowed]
      · simp_all [codeAllowed]

lemma chainOk_cons (al : Option CallState → Option CallState → Bool)
    (a : Option CallState) (c : CallData) (evs : List (Event × Bool)) :
    chainOk al (a :: stateTrace c evs) =
      (al a c.state && chainOk al (stateTrace c evs)) := by
  cases evs with
  | nil => simp [stateTrace, chainOk]
  | cons p rest => rcases p with ⟨e, env⟩; simp [stateTrace, chainOk]

lemma chainOk_codeAllowed (evs : List (Event × Bool)) :
    ∀ c : CallData, c.state ≠ some CallState.DIALING →
      c.state ≠ some CallState.RINGING →
      chainOk codeAllowed (stateTrace c evs) = true := by
  induction evs with
  | nil => intro c _ _; rfl
  | cons p rest ih =>
      rcases p with ⟨e, env⟩
      intro c h1 h2
      obtain ⟨hstep, hd, hr⟩ := step_state_ok env c e h1 h2
      simp only [stateTrace, chainOk_cons, hstep, Bool.true_and]
      exact ih _ hd hr

/-! ## Claim theorems -/

/-- Claim C1, as stated, is false: the event sequence trying, OK(INVITE),
trying drives the state `unset → TRYING → ANSWERED → TRYING` — the backward
transition `ANSWERED → TRYING` is reached, which the spec's transition chain
(`Dialing → Trying → Answered → Ended` / `{Dialing, Trying} → Ended`, with the
unset initial state read as `Dialing`) does not allow. -/
theorem C1_counterexample :
    stateTrace initialCall
        [(Event.trying, false), (Event.ok "INVITE", false), (Event.trying, false)] =
      [none, some CallState.TRYING, some CallState.ANSWERED, some CallState.TRYING] ∧
    chainOk specAllowed (stateTrace initialCall
        [(Event.trying, false), (Event.ok "INVITE", false), (Event.trying, false)]) =
      false ∧
    specAllowed (some CallState.ANSWERED) (some CallState.TRYING) = false :=
  ⟨rfl, rfl, rfl⟩

/-- Claim C1 (amended): along every sequence of handled signaling events and
caller operations, each state transition is one of: staying in place, any
state to `TRYING` (a trying response is handled unconditionally, so
`Answered → Trying` and `Ended → Trying` are reachable backward transitions),
`TRYING → ANSWERED`, or `{TRYING, ANSWERED} → ENDED`; the `DIALING` value is
never assigned — the pre-trying state is the unset `None`. -/
theorem C1_amended_transitions (evs : List (Event × Bool)) :
    chainOk codeAllowed (stateTrace initialCall evs) = true :=
  chainOk_codeAllowed evs initialCall (by simp [initialCall]) (by simp [initialCall])

/-- Claim C2, as stated, is false: at the concrete call
`phoneCall [] "1000" "cid1" "sid1"` the observable trace is the invite send
followed by the registry insertion, so the insertion does not precede the
negotiation-request send. -/
theorem C2_counterexample :
    (phoneCall [] "1000" "cid1" "sid1").trace =
      [TraceEv.sent SipSend.invite, TraceEv.registered "cid1"] ∧
    insertBeforeSend (phoneCall [] "1000" "cid1" "sid1").trace = false :=
  ⟨rfl, rfl⟩

/-- Claim C2 (amended): `Phone.call` always sends the negotiation request
first (the call identifier is only known from its response) and inserts the
new record into the registry afterwards; the registration race is instead
covered by the dispatcher's bounded registry-lookup retry. -/
theorem C2_amended_insert_after_send (reg : List (String × CallData))
    (number cid sid : String) :
    (phoneCall reg number cid sid).trace =
      [TraceEv.sent SipSend.invite, TraceEv.registered cid] ∧
    (phoneCall reg number cid sid).registry =
      (cid, (newCall number cid sid initialCall).call) :: reg :=
  ⟨rfl, rfl⟩

/-- Claim C10: a freshly constructed call, also after `_new_call` placed it,
has `state = None` (no `CallState` value, in particular not `DIALING`);
`_hangup` on such a call records `BYE_FROM_LOCAL` as the stop reason but sends
no teardown request, raises nothing, and leaves the state unset — it never
reaches `ENDED`. -/
theorem C10_unset_state_hangup (number cid sid : String) (env : Bool) :
    initialCall.state = none ∧
    (newCall number cid sid initialCall).call.state = none ∧
    hangup env (newCall number cid sid initialCall).call =
      { call := { (newCall number cid sid initialCall).call with
                    stop_reason := some CallStopReason.BYE_FROM_LOCAL }
        sent := []
        err := none } ∧
    (hangup env (newCall number cid sid initialCall).call).call.state = none :=
  ⟨rfl, rfl, rfl, rfl⟩

lemma stopCall_stop_reason (env : Bool) (c : CallData) :
    (stopCall env c).call.stop_reason = c.stop_reason := by
  obtain ⟨s, r, a, ci, n, si, iv, er, mc, ms⟩ := c
  rcases s with _ | s
  · rfl
  · rcases r with _ | r
    · rcases s <;> simp [stopCall]
    · rcases s <;> rcases r <;> rcases iv <;> rcases env <;> simp [stopCall]

/-- Claim C3, as stated, is false: on a freshly placed call (no response
handled yet, so `state` is unset — the spec's `Dialing`), `_handle_not_found`
records `SIP_ERROR` and never connects media, but the state afterwards stays
unset: it is not `ENDED`, because `_stop` is a no-op on a falsy state. -/
theorem C3_counterexample :
    (handleNotFound false (newCall "1000" "c1" "s1" initialCall).call).call.state ≠
      some CallState.ENDED ∧
    (handleNotFound false (newCall "1000" "c1" "s1" initialCall).call).call.state =
      none ∧
    (handleNotFound false (newCall "1000" "c1" "s1" initialCall).call).call.stop_reason =
      some CallStopReason.SIP_ERROR ∧
    (handleNotFound false (newCall "1000" "c1" "s1" initialCall).call).call.media_connected =
      false :=
  ⟨by decide, rfl, rfl, rfl⟩

/-- Claim C3 (amended): if a call that has received no response yet (state
unset, the spec's `Dialing`) handles a not-found response, then its StopReason
is `SIP_ERROR`, an ack is the only message sent, the media transport's connect
was never invoked — but the teardown it triggers is a no-op on the unset
state, so the state remains unset rather than becoming `ENDED`. -/
theorem C3_amended_not_found (c : CallData) (env : Bool)
    (h1 : c.state = none) (h2 : c.media_connected = false) :
    (handleNotFound env c).call.state = none ∧
    (handleNotFound env c).call.stop_reason = some CallStopReason.SIP_ERROR ∧
    (handleNotFound env c).call.media_connected = false ∧
    (handleNotFound env c).sent = [SipSend.ack] ∧
    (handleNotFound env c).err = none := by
  obtain ⟨s, r, a, ci, n, si, iv, er, mc, ms⟩ := c
  simp only [Option.some.injEq] at h1 h2
  subst h1 h2
  simp [handleNotFound, stopCall]

/-- Claim C3 amended, witnessed on a concrete freshly placed call. -/
theorem C3_amended_witness :
    (handleNotFound false (newCall "1001" "c3" "s3" initialCall).call).call.state = none ∧
    (handleNotFound false (newCall "1001" "c3" "s3" initialCall).call).call.stop_reason =
      some CallStopReason.SIP_ERROR ∧
    (handleNotFound false (newCall "1001" "c3" "s3" initialCall).call).call.media_connected =
      false ∧
    (handleNotFound false (newCall "1001" "c3" "s3" initialCall).call).sent =
      [SipSend.ack] ∧
    (handleNotFound false (newCall "1001" "c3" "s3" initialCall).call).err = none :=
  C3_amended_not_found (newCall "1001" "c3" "s3" initialCall).call false rfl rfl

/-- Claim C4, as stated, is false: on a freshly placed call,
`_handle_not_found` sets the StopReason to `SIP_ERROR`; a subsequent `_hangup`
overwrites it with the different value `BYE_FROM_LOCAL`. -/
theorem C4_counterexample :
    (handleNotFound false (newCall "7" "c2" "s2" initialCall).call).call.stop_reason =
      some CallStopReason.SIP_ERROR ∧
    (hangup false
        (handleNotFound false (newCall "7" "c2" "s2" initialCall).call).call).call.stop_reason =
      some CallStopReason.BYE_FROM_LOCAL :=
  ⟨rfl, rfl⟩

/-- Claim C4 (amended): StopReason is not write-once: `_handle_not_found`,
`_handle_unavailable` and `_handle_bye` each assign their own reason
unconditionally, and `_hangup` assigns `BYE_FROM_LOCAL` whenever the state is
not `ENDED` — so a handler that runs later overwrites an already-set
StopReason with its own value. -/
theorem C4_amended_stop_reason (c : CallData) (env : Bool)
    (h : c.state ≠ some CallState.ENDED) :
    (handleNotFound env c).call.stop_reason = some CallStopReason.SIP_ERROR ∧
    (handleUnavailable env c).call.stop_reason = some CallStopReason.SIP_ERROR ∧
    (handleBye env c).call.stop_reason = some CallStopReason.BYE_FROM_PBX ∧
    (hangup env c).call.stop_reason = some CallStopReason.BYE_FROM_LOCAL := by
  refine ⟨?_, ?_, ?_, ?_⟩ <;>
    simp [handleNotFound, handleUnavailable, handleBye, hangup, h,
      stopCall_stop_reason]

/-- Claim C4 amended, witnessed on a concrete call whose StopReason is already
`SIP_ERROR`: every teardown-initiating handler overwrites it. -/
theorem C4_amended_witness :
    (handleNotFound false
        (handleNotFound false (newCall "7" "c4" "s4" initialCall).call).call).call.stop_reason =
      some CallStopReason.SIP_ERROR ∧
    (handleUnavailable false
        (handleNotFound false (newCall "7" "c4" "s4" initialCall).call).call).call.stop_reason =
      some CallStopReason.SIP_ERROR ∧
    (handleBye false
        (handleNotFound false (newCall "7" "c4" "s4" initialCall).call).call).call.stop_reason =
      some CallStopReason.BYE_FROM_PBX ∧
    (hangup false
        (handleNotFound false (newCall "7" "c4" "s4" initialCall).call).call).call.stop_reason =
      some CallStopReason.BYE_FROM_LOCAL :=
  C4_amended_stop_reason
    (handleNotFound false (newCall "7" "c4" "s4" initialCall).call).call false
    (by decide)

/-- Claim C5: `_handle_OK` raises the protocol-sequence error (without
mutating the record) whenever the state is unset (the spec's `Dialing`),
`ENDED`, or the literal `DIALING`; it completes without error exactly when the
state is `TRYING`, or the state is `ANSWERED` and the response's CSeq method
correlates to the teardown request (`BYE`) or the original negotiation
(`INVITE`). -/
theorem C5_handle_ok_states (c : CallData) (m : String) :
    ((c.state = none ∨ c.state = some CallState.ENDED ∨
        c.state = some CallState.DIALING) →
      (handleOK m c).err = some CallError.protocolSequence ∧
        (handleOK m c).call = c) ∧
    ((handleOK m c).err = none ↔
      (c.state = some CallState.TRYING ∨
        (c.state = some CallState.ANSWERED ∧ (m = "BYE" ∨ m = "INVITE")))) := by
  unfold handleOK
  split_ifs with h1 h2 h3 <;> simp_all

/-- Claim C5, witnessed: an OK in the unset pre-trying state raises the
protocol-sequence error, and an OK(BYE) in state `ANSWERED` does not. -/
theorem C5_witness :
    ((handleOK "BYE" initialCall).err = some CallError.protocolSequence ∧
      (handleOK "BYE" initialCall).call = initialCall) ∧
    (handleOK "BYE"
        { initialCall with state := some CallState.ANSWERED }).err = none :=
  ⟨(C5_handle_ok_states initialCall "BYE").1 (Or.inl rfl),
    (C5_handle_ok_states { initialCall with state := some CallState.ANSWERED }
        "BYE").2.mpr (Or.inr ⟨rfl, Or.inl rfl⟩)⟩

/-- Claim C6: on a call holding its number and session id with no prior
authentication attempt recorded, `_handle_unauthorized` sends an ack and then
exactly one credentialed negotiation resend, sets the attempt flag, and raises
nothing; invoking it again on the result raises the authentication-failed
error and sends nothing. -/
theorem C6_unauthorized_retry (c : CallData)
    (h0 : c.auth_sent = false) (h1 : c.number.isSome = true)
    (h2 : c.sess_id.isSome = true) :
    (handleUnauthorized c).err = none ∧
    (handleUnauthorized c).sent = [SipSend.ack, SipSend.inviteAuth] ∧
    (handleUnauthorized c).sent.count SipSend.inviteAuth = 1 ∧
    (handleUnauthorized c).sent.count SipSend.invite = 0 ∧
    (handleUnauthorized c).call.auth_sent = true ∧
    (handleUnauthorized (handleUnauthorized c).call).err =
      some CallError.authenticationFailed ∧
    (handleUnauthorized (handleUnauthorized c).call).sent = [] := by
  obtain ⟨s, r, a, ci, n, si, iv, er, mc, ms⟩ := c
  rcases n with _ | n
  · simp at h1
  · rcases si with _ | si
    · simp at h2
    · subst h0
      simp [handleUnauthorized]

/-- Claim C6, witnessed on a concrete freshly placed call. -/
theorem C6_witness :
    (handleUnauthorized (newCall "1002" "c6" "s6" initialCall).call).err = none ∧
    (handleUnauthorized (newCall "1002" "c6" "s6" initialCall).call).sent =
      [SipSend.ack, SipSend.inviteAuth] ∧
    (handleUnauthorized (newCall "1002" "c6" "s6" initialCall).call).sent.count
      SipSend.inviteAuth = 1 ∧
    (handleUnauthorized (newCall "1002" "c6" "s6" initialCall).call).sent.count
      SipSend.invite = 0 ∧
    (handleUnauthorized (newCall "1002" "c6" "s6" initialCall).call).call.auth_sent =
      true ∧
    (handleUnauthorized
        (handleUnauthorized (newCall "1002" "c6" "s6" initialCall).call).call).err =
      some CallError.authenticationFailed ∧
    (handleUnauthorized
        (handleUnauthorized (newCall "1002" "c6" "s6" initialCall).call).call).sent =
      [] :=
  C6_unauthorized_retry (newCall "1002" "c6" "s6" initialCall).call rfl rfl rfl

/-- Claim C7: `_Call._stop` is a no-op when the state is already `ENDED`; on
a locally or error initiated teardown (`BYE_FROM_LOCAL` or `SIP_ERROR`) from
`TRYING` or `ANSWERED` it sends exactly one BYE, then waits for the state to
become `ENDED` — raising the teardown-timeout error (and not stopping media)
if the bound expires, and stopping the media transport once the state reached
`ENDED`; from any other originating `CallState` it raises the
invalid-teardown-state error without sending anything. -/
theorem C7_stop_teardown (c : CallData) (env : Bool) (s : CallState)
    (hs : c.state = some s) :
    (s = CallState.ENDED → stopCall env c = ⟨c, [], none⟩) ∧
    ((s = CallState.TRYING ∨ s = CallState.ANSWERED) →
      (c.stop_reason = some CallStopReason.BYE_FROM_LOCAL ∨
        c.stop_reason = some CallStopReason.SIP_ERROR) →
      c.invite_req = true →
      (stopCall env c).sent = [SipSend.bye] ∧
      (env = false →
        (stopCall env c).err = some CallError.teardownTimeout ∧
        (stopCall env c).call.media_stopped = c.media_stopped ∧
        (stopCall env c).call.state = c.state) ∧
      (env = true →
        (stopCall env c).call.state = some CallState.ENDED ∧
        (stopCall env c).call.media_stopped = true)) ∧
    ((s = CallState.DIALING ∨ s = CallState.RINGING) →
      (c.stop_reason = some CallStopReason.BYE_FROM_LOCAL ∨
        c.stop_reason = some CallStopReason.SIP_ERROR) →
      (stopCall env c).err = some CallError.invalidTeardownState ∧
      (stopCall env c).sent = []) := by
  obtain ⟨s0, r, a, ci, n, si, iv, er, mc, ms⟩ := c
  simp only [Option.some.injEq] at hs
  subst hs
  rcases s <;> rcases r with _ | r <;>
    first
      | (rcases r <;> rcases iv <;> rcases env <;> simp [stopCall])
      | (rcases iv <;> rcases env <;> simp [stopCall])

/-- A call locally tearing down from `TRYING`: the `invite_request` is held
and `_hangup` has recorded `BYE_FROM_LOCAL`. -/
def tryingTeardownCall : CallData :=
  { initialCall with
    state := some CallState.TRYING
    stop_reason := some CallStopReason.BYE_FROM_LOCAL
    invite_req := true }

/-- Claim C7, witnessed on a concrete locally-initiated teardown from
`TRYING` with the remote acknowledging in time. -/
theorem C7_witness :
    (stopCall true tryingTeardownCall).sent = [SipSend.bye] ∧
    (stopCall true tryingTeardownCall).call.state = some CallState.ENDED ∧
    (stopCall true tryingTeardownCall).call.media_stopped = true := by
  have h := (C7_stop_teardown tryingTeardownCall true CallState.TRYING rfl).2.1
    (Or.inl rfl) (Or.inl rfl) rfl
  exact ⟨h.1, (h.2.2 rfl).1, (h.2.2 rfl).2⟩

/-- Claim C9: if a first `_hangup` completes without raising, a second
`_hangup` on the resulting call is a no-op: it leaves the record unchanged,
sends no message (in particular no second BYE), and raises nothing. -/
theorem C9_hangup_idempotent (c : CallData) (env1 env2 : Bool)
    (h : (hangup env1 c).err = none) :
    (hangup env2 (hangup env1 c).call).call = (hangup env1 c).call ∧
    (hangup env2 (hangup env1 c).call).sent = [] ∧
    (hangup env2 (hangup env1 c).call).err = none := by
  obtain ⟨s, r, a, ci, n, si, iv, er, mc, ms⟩ := c
  rcases s with _ | s
  · rcases env1 <;> rcases env2 <;> simp_all [hangup, stopCall]
  · rcases s <;> rcases r with _ | r <;>
      first
        | (rcases r <;> rcases iv <;> rcases env1 <;> rcases env2 <;>
            simp_all [hangup, stopCall])
        | (rcases iv <;> rcases env1 <;> rcases env2 <;>
            simp_all [hangup, stopCall])

/-- An answered call holding its `invite_request`. -/
def answeredCall : CallData :=
  { initialCall with
    state := some CallState.ANSWERED
    invite_req := true }

/-- Claim C9, witnessed on a concrete answered call whose first hangup is
acknowledged by the remote side. -/
theorem C9_witness :
    (hangup false (hangup true answeredCall).call).call =
      (hangup true answeredCall).call ∧
    (hangup false (hangup true answeredCall).call).sent = [] ∧
    (hangup false (hangup true answeredCall).call).err = none :=
  C9_hangup_idempotent answeredCall true false (by decide)

lemma tryWaitRun_never (cond : Nat → Option α) (h : ∀ t, cond t = none) :
    ∀ fuel start, tryWaitRun cond fuel start = Except.error (start + fuel) := by
  intro fuel
  induction fuel with
  | zero => intro start; simp [tryWaitRun]
  | succ k ih =>
      intro start
      have e : start + 1 + k = start + (k + 1) := by omega
      rw [tryWaitRun, h start, ih (start + 1), e]

lemma tryWaitRun_hits (cond : Nat → Option α) :
    ∀ fuel start t, start ≤ t → t < start + fuel → (cond t).isSome = true →
      ∃ v k, tryWaitRun cond fuel start = Except.ok (v, k) ∧ start ≤ k ∧ k ≤ t := by
  intro fuel
  induction fuel with
  | zero => intro start t h1 h2 _; exact absurd h2 (by omega)
  | succ f ih =>
      intro start t h1 h2 h3
      rcases hc : cond start with _ | v
      · rcases Nat.eq_or_lt_of_le h1 with rfl | hlt
        · rw [hc] at h3; simp at h3
        · obtain ⟨v, k, hrun, hk1, hk2⟩ := ih (start + 1) t hlt (by omega) h3
          exact ⟨v, k, by rw [tryWaitRun, hc]; exact hrun, by omega, hk2⟩
      · exact ⟨v, start, by rw [tryWaitRun, hc], Nat.le_refl start, h1⟩

/-- Claim C8: the dispatcher's registry lookup, `try_wait` over
`Phone.calls[Call-ID]`: if the identifier is registered at some poll tick
within the timeout window, the lookup succeeds (at a tick no later than that
one); if the identifier never appears, it fails only after the full timeout —
the raised error carries exactly `maxPolls` elapsed ticks, never fewer. -/
theorem C8_dispatch_lookup (regAt : Nat → List (String × CallData))
    (cid : String) (maxPolls : Nat) :
    ((∃ t, t < maxPolls ∧ ((regAt t).lookup cid).isSome = true) →
      ∃ v k, phoneLookup regAt cid maxPolls = Except.ok (v, k) ∧ k < maxPolls) ∧
    ((∀ t, (regAt t).lookup cid = none) →
      phoneLookup regAt cid maxPolls = Except.error maxPolls) := by
  constructor
  · rintro ⟨t, ht, hsome⟩
    obtain ⟨v, k, hrun, _, hk⟩ :=
      tryWaitRun_hits (fun u => (regAt u).lookup cid) maxPolls 0 t
        (Nat.zero_le t) (by omega) hsome
    exact ⟨v, k, hrun, by omega⟩
  · intro h
    have := tryWaitRun_never (fun u => (regAt u).lookup cid) h maxPolls 0
    simpa [phoneLookup, try_wait] using this

/-- Claim C8, witnessed: a registry that holds the identifier from tick 0
resolves at once; an always-empty registry fails with the full two-poll
timeout elapsed. -/
theorem C8_witness :
    (∃ v k, phoneLookup (fun _ => [("c8", initialCall)]) "c8" 2 =
        Except.ok (v, k) ∧ k < 2) ∧
    phoneLookup (fun _ => ([] : List (String × CallData))) "c8" 2 =
      Except.error 2 :=
  ⟨(C8_dispatch_lookup (fun _ => [("c8", initialCall)]) "c8" 2).1
      ⟨0, by decide, by decide⟩,
    (C8_dispatch_lookup (fun _ => ([] : List (String × CallData))) "c8" 2).2
      (fun _ => rfl)⟩

end VoipSttest
